import Mathlib

/-!
Verification of `src/photos/add_exif_data_from_filename.py`.

The Python source is shallowly embedded below.  Strings are modelled as
`List Char` (ASCII digit semantics for the regex class `\d` and for
`str.strip`, which is the reachable fragment for the filenames the
program is about).  The regular expression

  `(\d{4}[-._]?\d{2}[-._]?\d{2})(?:.*(\d{2}[-._]?\d{2}[-._]?\d{2}))?`

used with `re.search` is embedded by hand: at each candidate position the
date group matches deterministically (each optional separator `[-._]?` is
forced: if the next character is a separator it must be consumed, since
otherwise a digit would be required where a non-digit stands), `re.search`
takes the leftmost position where the date group matches, and the greedy
`.*` inside the optional group makes the time group match at the rightmost
possible start position not preceded by a newline.  `datetime.strptime`
with the formats `%Y%m%d` / `%Y%m%d%H%M%S`, restricted to the all-digit
strings of exact length that the call sites produce, accepts exactly the
in-range calendar values (month 1-12, day within the month, hour 0-23,
minute 0-59, second 0-59; `datetime` rejects year 0 and seconds 60/61).
-/

/-- A parsed `datetime` value: the fields of the Python `datetime` object
the program reads (year, month, day, hour, minute, second). -/
structure DateTime where
  year : Nat
  month : Nat
  day : Nat
  hour : Nat
  minute : Nat
  second : Nat
deriving DecidableEq, Repr

/-- The regex character class `[-._]` of the pattern. -/
def isSep (c : Char) : Bool := c = '-' || c = '.' || c = '_'

/-- Match exactly `n` characters satisfying `\d`; returns the consumed
characters and the remainder. -/
def matchDigits : Nat → List Char → Option (List Char × List Char)
  | 0, s => some ([], s)
  | _ + 1, [] => none
  | n + 1, c :: rest =>
    if c.isDigit then
      (matchDigits n rest).map (fun p => (c :: p.1, p.2))
    else none

/-- Match the optional separator `[-._]?` (greedy, and forced: consuming a
separator character is the only way a following `\d` can succeed). -/
def matchOptSep : List Char → List Char × List Char
  | [] => ([], [])
  | c :: rest => if isSep c then ([c], rest) else ([], c :: rest)

/-- Match the date group `\d{4}[-._]?\d{2}[-._]?\d{2}` at the head of the
input; returns the matched token text and the remainder. -/
def matchDateGroup (s : List Char) : Option (List Char × List Char) :=
  match matchDigits 4 s with
  | none => none
  | some (d4, r1) =>
    let p1 := matchOptSep r1
    match matchDigits 2 p1.2 with
    | none => none
    | some (d2a, r2) =>
      let p2 := matchOptSep r2
      match matchDigits 2 p2.2 with
      | none => none
      | some (d2b, r3) => some (d4 ++ p1.1 ++ d2a ++ p2.1 ++ d2b, r3)

/-- Match the time group `\d{2}[-._]?\d{2}[-._]?\d{2}` at the head of the
input; returns the matched token text (the remainder is unconstrained,
since the group ends the pattern). -/
def matchTimeGroup (s : List Char) : Option (List Char) :=
  match matchDigits 2 s with
  | none => none
  | some (d2a, r1) =>
    let p1 := matchOptSep r1
    match matchDigits 2 p1.2 with
    | none => none
    | some (d2b, r2) =>
      let p2 := matchOptSep r2
      match matchDigits 2 p2.2 with
      | none => none
      | some (d2c, _) => some (d2a ++ p1.1 ++ d2b ++ p2.1 ++ d2c)

/-- `re.search` for the whole pattern: the pattern matches at a position
iff the mandatory date group does (the trailing group is optional), and
`re.search` returns the leftmost such position. -/
def searchDate : List Char → Option (List Char × List Char)
  | [] => none
  | c :: rest =>
    match matchDateGroup (c :: rest) with
    | some r => some r
    | none => searchDate rest

/-- The optional trailing `(?:.*(time))?` after the date group: greedy
`.*` (which does not cross a newline) makes the time group match at the
rightmost possible start; `none` when the group matches empty
(`match.group(2)` is `None`). -/
def searchTime : List Char → Option (List Char)
  | [] => none
  | c :: rest =>
    if c = '\n' then matchTimeGroup (c :: rest)
    else
      match searchTime rest with
      | some t => some t
      | none => matchTimeGroup (c :: rest)

/-- `str.ljust(n, c)`. -/
def ljust (l : List Char) (n : Nat) (c : Char) : List Char :=
  l ++ List.replicate (n - l.length) c

/-- Decimal value of a digit string (`int` conversion done by `strptime`
on each matched field). -/
def digitsToNat (l : List Char) : Nat :=
  l.foldl (fun acc c => acc * 10 + (c.toNat - 48)) 0

/-- Gregorian leap year, as the `datetime` module computes it. -/
def isLeapYear (y : Nat) : Bool :=
  y % 4 = 0 && (y % 100 ≠ 0 || y % 400 = 0)

/-- Number of days of month `m` in year `y` (`datetime` calendar). -/
def daysInMonth (y m : Nat) : Nat :=
  if m = 2 then (if isLeapYear y then 29 else 28)
  else if m = 4 || m = 6 || m = 9 || m = 11 then 30
  else 31

/-- Calendar dates accepted by `datetime` (year 1-9999). -/
def validDate (y m d : Nat) : Bool :=
  1 ≤ y && y ≤ 9999 && 1 ≤ m && m ≤ 12 && 1 ≤ d && d ≤ daysInMonth y m

/-- Times of day accepted by the `datetime` constructor. -/
def validTime (h mi s : Nat) : Bool :=
  h ≤ 23 && mi ≤ 59 && s ≤ 59

/-- `datetime.strptime(l, "%Y%m%d")` restricted to its reachable inputs
(the cleaned date token, always exactly 8 digit characters): fixed-width
fields year/month/day, `none` on any out-of-range value (`ValueError`). -/
def strptimeYmd (l : List Char) : Option DateTime :=
  if l.length = 8 ∧ l.all Char.isDigit = true then
    let y := digitsToNat (l.take 4)
    let m := digitsToNat ((l.drop 4).take 2)
    let d := digitsToNat ((l.drop 6).take 2)
    if validDate y m d then some ⟨y, m, d, 0, 0, 0⟩ else none
  else none

/-- `datetime.strptime(l, "%Y%m%d%H%M%S")` restricted to its reachable
inputs (8 cleaned date digits plus the padded 6 time digits). -/
def strptimeYmdHMS (l : List Char) : Option DateTime :=
  if l.length = 14 ∧ l.all Char.isDigit = true then
    let y := digitsToNat (l.take 4)
    let m := digitsToNat ((l.drop 4).take 2)
    let d := digitsToNat ((l.drop 6).take 2)
    let h := digitsToNat ((l.drop 8).take 2)
    let mi := digitsToNat ((l.drop 10).take 2)
    let s := digitsToNat ((l.drop 12).take 2)
    if validDate y m d && validTime h mi s then some ⟨y, m, d, h, mi, s⟩
    else none
  else none

/-- `extract_datetime_from_filename` (lines 8-45 of the source): search
for the date token (and optionally a following time token), strip
non-digits, right-pad the time digits to 6 with `'0'`, try the combined
parse, fall back to the date-only parse, and return `None` on failure
(also when the pattern does not match at all: the function then falls off
the end of `if match:`). -/
def extract_datetime_from_filename (filename : List Char) : Option DateTime :=
  match searchDate filename with
  | none => none
  | some (dateTok, rest) =>
    let cleaned_date_str := dateTok.filter Char.isDigit
    match searchTime rest with
    | some timeTok =>
      let cleaned_time_str := ljust (timeTok.filter Char.isDigit) 6 '0'
      match strptimeYmdHMS (cleaned_date_str ++ cleaned_time_str) with
      | some dt => some dt
      | none =>
        match strptimeYmd cleaned_date_str with
        | some dt => some dt
        | none => none
    | none =>
      match strptimeYmd cleaned_date_str with
      | some dt => some dt
      | none => none

/-- The year-month-day triple encoded by the 8 digits of a date token
(used to state what "the date component equals that triple" means). -/
def dateDigitsOf (tok : List Char) : Option (Nat × Nat × Nat) :=
  let ds := tok.filter Char.isDigit
  if ds.length = 8 then
    some (digitsToNat (ds.take 4), digitsToNat ((ds.drop 4).take 2),
      digitsToNat ((ds.drop 6).take 2))
  else none

/-- Formatted digit characters for `strftime`. -/
def digitChar : Nat → Char
  | 0 => '0' | 1 => '1' | 2 => '2' | 3 => '3' | 4 => '4'
  | 5 => '5' | 6 => '6' | 7 => '7' | 8 => '8' | _ => '9'

/-- Two-digit zero-padded decimal (`strftime` `%m`, `%d`). -/
def pad2 (n : Nat) : List Char := [digitChar (n / 10 % 10), digitChar (n % 10)]

/-- Four-digit zero-padded decimal (`strftime` `%Y`; the years the
program formats are the 4-digit years `strptime` accepted). -/
def pad4 (n : Nat) : List Char :=
  [digitChar (n / 1000 % 10), digitChar (n / 100 % 10),
   digitChar (n / 10 % 10), digitChar (n % 10)]

/-- The value the processor writes: `date_obj.strftime("%Y:%m:%d 00:00:00")`
(line 81).  `strftime` reads only the year, month and day fields here; the
time of day is the literal text `00:00:00`. -/
def formatDateOnly (y m d : Nat) : List Char :=
  pad4 y ++ ':' :: pad2 m ++ ':' :: pad2 d ++ (" 00:00:00").data

/-- `exif_date` for an extracted timestamp. -/
def formatExifDate (dt : DateTime) : List Char :=
  formatDateOnly dt.year dt.month dt.day

/-- One directory entry together with the responses of the external
environment for it: `queryOutput` is the stdout of the `exiftool`
metadata query on the input file, `writeSucceeds` tells whether the
`exiftool` write invocation exits with status 0. -/
structure FileEntry where
  name : List Char
  queryOutput : List Char
  writeSucceeds : Bool
deriving DecidableEq, Repr

/-- The run configuration of `process_images` (its keyword parameters). -/
structure Config where
  processed_dir : Option (List Char)
  move : Bool
  in_place : Bool
  replace_old_metadata : Bool
deriving DecidableEq, Repr

/-- The statistics dictionary of `process_images` (lines 58-65). -/
structure Stats where
  total_files : Nat
  files_changed : Nat
  files_skipped_no_date : Nat
  files_skipped_existing_metadata : Nat
  files_metadata_replaced : Nat
  files_error : Nat
deriving DecidableEq, Repr

/-- The zero-initialised statistics dictionary. -/
def initStats : Stats := ⟨0, 0, 0, 0, 0, 0⟩

/-- The outcome a single directory entry terminates at (`abortedRun` is
the `TypeError` raised by `os.path.join(None, filename)` when
`processed_dir` is absent and `in_place` is false). -/
inductive Outcome where
  | abortedRun
  | skippedNoDate
  | skippedExisting
  | changed
  | replaced
  | errored
deriving DecidableEq, Repr

/-- Observable side effects of a run, in program order: directory
creation, the metadata query subprocess, file placement, and the metadata
write subprocess (with the two field values it assigns and its exit
status). -/
inductive Effect where
  | mkdirs (path : List Char)
  | query (path : List Char)
  | move (src dst : List Char)
  | copy (src dst : List Char)
  | writeMeta (path createDate dateTimeOriginal : List Char) (ok : Bool)
deriving DecidableEq, Repr

/-- `os.path.join` for the paths the program builds. -/
def joinPath (a b : List Char) : List Char := a ++ '/' :: b

/-- `str.strip()` (on the ASCII whitespace the query output uses). -/
def pyStrip (l : List Char) : List Char :=
  ((l.dropWhile Char.isWhitespace).reverse.dropWhile Char.isWhitespace).reverse

/-- `result.stdout.strip()` truthiness: the pre-placement existing
metadata signal (line 95 and line 121 both read this same value). -/
def hasExistingMeta (f : FileEntry) : Bool := !(pyStrip f.queryOutput).isEmpty

/-- Python truthiness of the optional `processed_dir` argument in
`if not in_place and processed_dir:` (line 55): `None` and the empty
string are both falsy. -/
def optNonEmpty : Option (List Char) → Bool
  | none => false
  | some p => !p.isEmpty

/-- The `output_file` computation (lines 70-72): `none` models the
`TypeError` raised by `os.path.join(None, filename)`. -/
def outputPath (cfg : Config) (directory filename : List Char) :
    Option (List Char) :=
  if cfg.in_place then some (joinPath directory filename)
  else
    match cfg.processed_dir with
    | some p => some (joinPath p filename)
    | none => none

/-- The body of the `for` loop for one directory entry, after the
total-files increment: the outcome it terminates at and the side effects
it performs, in order (lines 69-129). -/
def fileOutcome (cfg : Config) (directory : List Char) (f : FileEntry) :
    Outcome × List Effect :=
  let input_file := joinPath directory f.name
  match outputPath cfg directory f.name with
  | none => (Outcome.abortedRun, [])
  | some output_file =>
    match extract_datetime_from_filename f.name with
    | none => (Outcome.skippedNoDate, [])
    | some dt =>
      let exif_date := formatExifDate dt
      if hasExistingMeta f && !cfg.replace_old_metadata then
        (Outcome.skippedExisting, [Effect.query input_file])
      else
        let place : List Effect :=
          if !cfg.in_place then
            (if cfg.move then [Effect.move input_file output_file]
             else [Effect.copy input_file output_file])
          else []
        let outc : Outcome :=
          if f.writeSucceeds then
            (if hasExistingMeta f && cfg.replace_old_metadata then
              Outcome.replaced
            else Outcome.changed)
          else Outcome.errored
        (outc, Effect.query input_file ::
          place ++ [Effect.writeMeta output_file exif_date exif_date f.writeSucceeds])

/-- Increment `stats["total_files"]` (line 68). -/
def bumpTotal (st : Stats) : Stats :=
  { st with total_files := st.total_files + 1 }

/-- The counter increment performed for each outcome. -/
def applyOutcome (st : Stats) : Outcome → Stats
  | Outcome.abortedRun => st
  | Outcome.skippedNoDate =>
    { st with files_skipped_no_date := st.files_skipped_no_date + 1 }
  | Outcome.skippedExisting =>
    { st with files_skipped_existing_metadata :=
        st.files_skipped_existing_metadata + 1 }
  | Outcome.changed => { st with files_changed := st.files_changed + 1 }
  | Outcome.replaced =>
    { st with files_metadata_replaced := st.files_metadata_replaced + 1 }
  | Outcome.errored => { st with files_error := st.files_error + 1 }

/-- Result of a run: the statistics, the effect trace, and whether the
run was aborted by the `TypeError` (in Python the exception propagates
and the statistics are lost; the model keeps them to state when the
abort happens). -/
structure RunResult where
  stats : Stats
  effects : List Effect
  aborted : Bool
deriving DecidableEq, Repr

/-- The `for filename in os.listdir(directory)` loop (lines 67-129):
processes entries in order, stops at the `TypeError` abort, otherwise
threads the statistics through `fileOutcome`. -/
def runProcess (cfg : Config) (directory : List Char) :
    List FileEntry → Stats → RunResult
  | [], st => ⟨st, [], false⟩
  | f :: fs, st =>
    let st1 := bumpTotal st
    let o := fileOutcome cfg directory f
    if o.1 = Outcome.abortedRun then ⟨st1, o.2, true⟩
    else
      let r := runProcess cfg directory fs (applyOutcome st1 o.1)
      ⟨r.stats, o.2 ++ r.effects, r.aborted⟩

/-- `process_images` (lines 48-131): create the destination directory
when not in place and `processed_dir` is truthy, then run the loop over
the directory listing starting from zeroed statistics. -/
def process_images (cfg : Config) (directory : List Char)
    (files : List FileEntry) : RunResult :=
  let mk : List Effect :=
    if !cfg.in_place && optNonEmpty cfg.processed_dir then
      [Effect.mkdirs (cfg.processed_dir.getD [])]
    else []
  let r := runProcess cfg directory files initStats
  ⟨r.stats, mk ++ r.effects, r.aborted⟩

/-- Sum of the five per-outcome counters. -/
def sumCounters (st : Stats) : Nat :=
  st.files_changed + st.files_metadata_replaced + st.files_skipped_no_date +
    st.files_skipped_existing_metadata + st.files_error

/-- The filename `2023c04c15.jpg` for a candidate separator character
`c` (used to settle which separators the date-token search accepts). -/
def dateWithSep (c : Char) : List Char :=
  ['2', '0', '2', '3', c, '0', '4', c, '1', '5', '.', 'j', 'p', 'g']

theorem matchDigits_zero (s : List Char) : matchDigits 0 s = some ([], s) := rfl

theorem matchDigits_cons_digit (n : Nat) (c : Char) (r : List Char)
    (h : c.isDigit = true) :
    matchDigits (n + 1) (c :: r) =
      (matchDigits n r).map (fun p => (c :: p.1, p.2)) := by
  simp [matchDigits, h]

theorem matchDigits_cons_not_digit (n : Nat) (c : Char) (r : List Char)
    (h : c.isDigit = false) : matchDigits (n + 1) (c :: r) = none := by
  simp [matchDigits, h]

theorem matchOptSep_sep (c : Char) (r : List Char) (h : isSep c = true) :
    matchOptSep (c :: r) = ([c], r) := by
  simp [matchOptSep, h]

theorem matchOptSep_not_sep (c : Char) (r : List Char) (h : isSep c = false) :
    matchOptSep (c :: r) = ([], c :: r) := by
  simp [matchOptSep, h]

theorem matchDigits_spec (n : Nat) :
    ∀ s t r : List Char, matchDigits n s = some (t, r) →
      s = t ++ r ∧ t.length = n ∧ t.all Char.isDigit = true := by
  induction n with
  | zero =>
    intro s t r h
    simp [matchDigits] at h
    simp [h.1, h.2]
  | succ n ih =>
    intro s t r h
    match s with
    | [] => simp [matchDigits] at h
    | c :: rest =>
      by_cases hc : c.isDigit = true
      · rw [matchDigits_cons_digit n c rest hc] at h
        match hm : matchDigits n rest with
        | none => rw [hm] at h; simp at h
        | some p =>
          rw [hm] at h
          simp at h
          obtain ⟨ht, hr⟩ := h
          obtain ⟨he, hl, ha⟩ := ih rest p.1 p.2 (by rw [hm])
          subst hr
          constructor
          · rw [← ht]; simp [he]
          · rw [← ht]; simp [hl, hc, ha]
      · rw [matchDigits_cons_not_digit n c rest (by simpa using hc)] at h
        exact absurd h (by simp)

theorem isDigit_of_isSep (c : Char) (h : isSep c = true) : c.isDigit = false := by
  have h' : (c = '-' ∨ c = '.') ∨ c = '_' := by
    simpa [isSep] using h
  rcases h' with (h' | h') | h' <;> subst h' <;> decide

theorem matchOptSep_spec (s : List Char) :
    s = (matchOptSep s).1 ++ (matchOptSep s).2 ∧
      (matchOptSep s).1.filter Char.isDigit = [] := by
  match s with
  | [] => simp [matchOptSep]
  | c :: rest =>
    by_cases hc : isSep c = true
    · rw [matchOptSep_sep c rest hc]
      simp [List.filter, isDigit_of_isSep c hc]
    · rw [matchOptSep_not_sep c rest (by simpa using hc)]
      simp

theorem filter_isDigit_of_all (t : List Char) (h : t.all Char.isDigit = true) :
    t.filter Char.isDigit = t :=
  List.filter_eq_self.mpr (by simpa [List.all_eq_true] using h)

theorem matchTimeGroup_digits (s tok : List Char)
    (h : matchTimeGroup s = some tok) :
    (tok.filter Char.isDigit).length = 6 := by
  unfold matchTimeGroup at h
  match h1 : matchDigits 2 s with
  | none => rw [h1] at h; simp at h
  | some q1 =>
    rw [h1] at h
    simp only at h
    match h2 : matchDigits 2 (matchOptSep q1.2).2 with
    | none => rw [h2] at h; simp at h
    | some q2 =>
      rw [h2] at h
      simp only at h
      match h3 : matchDigits 2 (matchOptSep q2.2).2 with
      | none => rw [h3] at h; simp at h
      | some q3 =>
        rw [h3] at h
        simp only [Option.some.injEq] at h
        obtain ⟨_, hl1, ha1⟩ := matchDigits_spec 2 s q1.1 q1.2 (by rw [h1])
        obtain ⟨_, hl2, ha2⟩ := matchDigits_spec 2 _ q2.1 q2.2 (by rw [h2])
        obtain ⟨_, hl3, ha3⟩ := matchDigits_spec 2 _ q3.1 q3.2 (by rw [h3])
        subst h
        simp [List.filter_append, filter_isDigit_of_all _ ha1,
          filter_isDigit_of_all _ ha2, filter_isDigit_of_all _ ha3,
          (matchOptSep_spec q1.2).2, (matchOptSep_spec q2.2).2, hl1, hl2, hl3]

theorem searchTime_digits (s tok : List Char) (h : searchTime s = some tok) :
    (tok.filter Char.isDigit).length = 6 := by
  induction s with
  | nil => simp [searchTime] at h
  | cons c rest ih =>
    unfold searchTime at h
    by_cases hc : c = '\n'
    · rw [if_pos hc] at h
      exact matchTimeGroup_digits (c :: rest) tok h
    · rw [if_neg hc] at h
      match hs : searchTime rest with
      | some t => rw [hs] at h; simp at h; subst h; exact ih hs
      | none =>
        rw [hs] at h
        exact matchTimeGroup_digits (c :: rest) tok h

theorem ljust_of_length_eq (l : List Char) (h : l.length = 6) :
    ljust l 6 '0' = l := by
  simp [ljust, h]

theorem strptimeYmd_midnight (l : List Char) (dt : DateTime)
    (h : strptimeYmd l = some dt) :
    dt.hour = 0 ∧ dt.minute = 0 ∧ dt.second = 0 := by
  simp only [strptimeYmd] at h
  split at h
  · split at h
    · simp only [Option.some.injEq] at h
      subst h
      exact ⟨rfl, rfl, rfl⟩
    · exact absurd h (by simp)
  · exact absurd h (by simp)

theorem all_filter_isDigit (l : List Char) :
    (l.filter Char.isDigit).all Char.isDigit = true := by
  simp [List.all_eq_true]

theorem strptimeYmd_of_dateDigits (tok : List Char) (y m d : Nat)
    (h1 : dateDigitsOf tok = some (y, m, d)) (h2 : validDate y m d = true) :
    strptimeYmd (tok.filter Char.isDigit) = some ⟨y, m, d, 0, 0, 0⟩ := by
  simp only [dateDigitsOf] at h1
  split at h1
  case isTrue hlen =>
    simp only [Option.some.injEq, Prod.mk.injEq] at h1
    obtain ⟨hy, hm, hd⟩ := h1
    unfold strptimeYmd
    rw [if_pos ⟨hlen, all_filter_isDigit tok⟩, hy, hm, hd, if_pos h2]
  case isFalse => exact absurd h1 (by simp)

/-- Claim C1, as stated, is false: the filename
`1202-30-41 2023-04-15.jpg` contains the 8-digit year-month-day run
`2023-04-15` (with separators, a valid calendar date) followed by no time
token (`searchTime ".jpg" = none`), yet the extractor returns `none`: the
search matches the earlier date-shaped token `1202-30-41` and then grabs
`23-04-15` as a time token, and both parses fail. -/
theorem C1_counterexample :
    ("1202-30-41 2023-04-15.jpg").data =
        ("1202-30-41 ").data ++ ("2023-04-15").data ++ (".jpg").data
      ∧ matchDateGroup ("2023-04-15").data = some (("2023-04-15").data, [])
      ∧ dateDigitsOf ("2023-04-15").data = some (2023, 4, 15)
      ∧ validDate 2023 4 15 = true
      ∧ searchTime ((".jpg").data) = none
      ∧ extract_datetime_from_filename ("1202-30-41 2023-04-15.jpg").data =
          none := by
  decide

/-- Claim C1 (amended): for every filename, when the date token found by
the search (the leftmost date-shaped token) encodes a valid calendar
triple and no time token follows it, the extractor returns exactly that
triple with time 00:00:00. -/
theorem C1_leftmost_date_yields_midnight (fn tok post : List Char)
    (y m d : Nat)
    (h1 : searchDate fn = some (tok, post))
    (h2 : searchTime post = none)
    (h3 : dateDigitsOf tok = some (y, m, d))
    (h4 : validDate y m d = true) :
    extract_datetime_from_filename fn = some ⟨y, m, d, 0, 0, 0⟩ := by
  have hs := strptimeYmd_of_dateDigits tok y m d h3 h4
  simp only [extract_datetime_from_filename, h1, h2, hs]

/-- Witness for C1 at the spec's own example `20230415_photo.jpg`. -/
theorem C1_witness :
    extract_datetime_from_filename ("20230415_photo.jpg").data =
      some ⟨2023, 4, 15, 0, 0, 0⟩ :=
  C1_leftmost_date_yields_midnight ("20230415_photo.jpg").data
    ("20230415").data ("_photo.jpg").data 2023 4 15
    (by decide) (by decide) (by decide) (by decide)

/-- Claim C2, as stated, is false: `'/'` is a non-digit separator and
`2023/04/15` is a valid year-month-day triple, but the date-token search
does not find it (the character class of the pattern is `[-._]`, not "any
non-digit"), and the extractor returns `none`. -/
theorem C2_counterexample :
    Char.isDigit '/' = false
      ∧ isSep '/' = false
      ∧ validDate 2023 4 15 = true
      ∧ searchDate ("2023/04/15.jpg").data = none
      ∧ extract_datetime_from_filename ("2023/04/15.jpg").data = none := by
  decide

/-- Claim C2 (amended): for a non-digit character `c` separating the
valid triple 2023-04-15 in `2023c04c15.jpg`, the extractor succeeds (and
returns that date) exactly when `c` is one of the three characters
`'-'`, `'.'`, `'_'` of the pattern's separator class. -/
theorem C2_separator_class (c : Char) (hc : c.isDigit = false) :
    (extract_datetime_from_filename (dateWithSep c) =
        some ⟨2023, 4, 15, 0, 0, 0⟩) ↔ isSep c = true := by
  have g0 : Char.isDigit '0' = true := by decide
  have g1 : Char.isDigit '1' = true := by decide
  have g2 : Char.isDigit '2' = true := by decide
  have g3 : Char.isDigit '3' = true := by decide
  have g4 : Char.isDigit '4' = true := by decide
  have g5 : Char.isDigit '5' = true := by decide
  have gd : Char.isDigit '.' = false := by decide
  have gj : Char.isDigit 'j' = false := by decide
  have gp : Char.isDigit 'p' = false := by decide
  have gg : Char.isDigit 'g' = false := by decide
  by_cases hs : isSep c = true
  · constructor
    · intro _; exact hs
    · intro _
      simp [dateWithSep, extract_datetime_from_filename, searchDate,
        matchDateGroup, searchTime, matchTimeGroup, strptimeYmd, dateDigitsOf,
        matchDigits_cons_digit, matchDigits_cons_not_digit, matchDigits_zero,
        matchOptSep_sep, matchOptSep_not_sep, g0, g1, g2, g3, g4, g5,
        gd, gj, gp, gg, hc, hs, isDigit_of_isSep c hs, digitsToNat, validDate,
        daysInMonth, isLeapYear]
  · have hs' : isSep c = false := by simpa using hs
    constructor
    · intro hext
      have : extract_datetime_from_filename (dateWithSep c) = none := by
        simp [dateWithSep, extract_datetime_from_filename, searchDate,
          matchDateGroup, matchDigits_cons_digit, matchDigits_cons_not_digit,
          matchDigits_zero, matchOptSep_sep, matchOptSep_not_sep,
          g0, g1, g2, g3, g4, g5, gd, gj, gp, gg, hc, hs']
      rw [this] at hext
      exact absurd hext (by simp)
    · intro h; exact absurd h (by simp [hs'])

/-- Witness for C2 at `c := '/'`: the hypothesis holds and the
equivalence specialises to the slash separator. -/
theorem C2_witness :
    Char.isDigit '/' = false ∧
      ((extract_datetime_from_filename (dateWithSep '/') =
          some ⟨2023, 4, 15, 0, 0, 0⟩) ↔ isSep '/' = true) :=
  ⟨by decide, C2_separator_class '/' (by decide)⟩

/-- Claim C3, as stated, is false: for `2023-04-15 14.jpg` the time
group of the pattern requires six digits, so the two-digit run `14` is
not captured as a time token; the extractor returns midnight
2023-04-15 00:00:00, not 2023-04-15 14:00:00. -/
theorem C3_counterexample :
    extract_datetime_from_filename ("2023-04-15 14.jpg").data =
        some ⟨2023, 4, 15, 0, 0, 0⟩
      ∧ extract_datetime_from_filename ("2023-04-15 14.jpg").data ≠
          some ⟨2023, 4, 15, 14, 0, 0⟩ := by
  decide

/-- Claim C3 (amended): every captured time token contains exactly six
digits (the pattern's time group is 2+2+2 digits with optional
separators), so the right-padding of the cleaned time string to six
digits never changes it; a shorter digit run such as an hour-only `14`
is never captured as a time token. -/
theorem C3_time_token_exactly_six_digits (s tok : List Char)
    (h : searchTime s = some tok) :
    (tok.filter Char.isDigit).length = 6 ∧
      ljust (tok.filter Char.isDigit) 6 '0' = tok.filter Char.isDigit := by
  have h6 := searchTime_digits s tok h
  exact ⟨h6, ljust_of_length_eq _ h6⟩

/-- Witness for C3 on the remainder `" 23.59.58.jpg"`, whose captured
time token is `23.59.58`. -/
theorem C3_witness :
    searchTime (" 23.59.58.jpg").data = some (("23.59.58").data) ∧
      (((("23.59.58").data).filter Char.isDigit).length = 6 ∧
        ljust ((("23.59.58").data).filter Char.isDigit) 6 '0' =
          (("23.59.58").data).filter Char.isDigit) :=
  ⟨by decide, C3_time_token_exactly_six_digits (" 23.59.58.jpg").data
    (("23.59.58").data) (by decide)⟩

/-- Claim C4: two-stage degradation.  If the search finds a date token
(and possibly a time token whose combined 14-digit string fails the
strict date-time parse), the extractor's result equals the date-only
parse of the 8 cleaned date digits: a valid calendar date gives that date
at midnight (the date-only parse always has time 00:00:00), and an
invalid one (e.g. month 13 in `20231399.jpg`) gives `none`. -/
theorem C4_two_stage_degradation (fn tok rest : List Char)
    (h1 : searchDate fn = some (tok, rest))
    (h2 : Option.all
        (fun t => (strptimeYmdHMS (tok.filter Char.isDigit ++
          ljust (t.filter Char.isDigit) 6 '0')).isNone)
        (searchTime rest) = true) :
    extract_datetime_from_filename fn = strptimeYmd (tok.filter Char.isDigit)
      ∧ ∀ dt : DateTime, strptimeYmd (tok.filter Char.isDigit) = some dt →
          dt.hour = 0 ∧ dt.minute = 0 ∧ dt.second = 0 := by
  constructor
  · match hst : searchTime rest with
    | none =>
      simp only [extract_datetime_from_filename, h1, hst]
      match hd : strptimeYmd (tok.filter Char.isDigit) with
      | none => simp
      | some dt => simp
    | some t =>
      rw [hst] at h2
      simp only [Option.all_some, Option.isNone_iff_eq_none] at h2
      simp only [extract_datetime_from_filename, h1, hst, h2]
      match hd : strptimeYmd (tok.filter Char.isDigit) with
      | none => simp
      | some dt => simp
  · intro dt hdt
    exact strptimeYmd_midnight _ dt hdt

/-- Witness for C4 at `20231399.jpg` (the spec's impossible-date
example): the found date token is `20231399`, no time token follows, and
the extractor returns `none` because month 13 fails the date-only
parse. -/
theorem C4_witness :
    extract_datetime_from_filename ("20231399.jpg").data =
        strptimeYmd ((("20231399").data).filter Char.isDigit)
      ∧ strptimeYmd ((("20231399").data).filter Char.isDigit) = none :=
  ⟨(C4_two_stage_degradation ("20231399.jpg").data ("20231399").data
      ((".jpg").data) (by decide) (by decide)).1,
    by decide⟩

theorem fileOutcome_writeMeta (cfg : Config) (directory : List Char)
    (f : FileEntry) (path v1 v2 : List Char) (ok : Bool)
    (h : Effect.writeMeta path v1 v2 ok ∈ (fileOutcome cfg directory f).2) :
    ∃ dt, extract_datetime_from_filename f.name = some dt ∧
      v1 = formatDateOnly dt.year dt.month dt.day ∧ v2 = v1 := by
  unfold fileOutcome at h
  match ho : outputPath cfg directory f.name with
  | none => rw [ho] at h; simp at h
  | some out =>
    rw [ho] at h
    match he : extract_datetime_from_filename f.name with
    | none => rw [he] at h; simp at h
    | some dt =>
      rw [he] at h
      simp only at h
      split at h
      · simp at h
      · refine ⟨dt, rfl, ?_⟩
        cases h with
        | tail _ h =>
          rcases List.mem_append.mp h with h | h
          · split at h
            · split at h <;> simp at h
            · simp at h
          · cases h with
            | head => exact ⟨rfl, rfl⟩
            | tail _ h => cases h

theorem runProcess_writeMeta (cfg : Config) (directory : List Char) :
    ∀ (files : List FileEntry) (st : Stats) (path v1 v2 : List Char)
      (ok : Bool),
      Effect.writeMeta path v1 v2 ok ∈
          (runProcess cfg directory files st).effects →
      ∃ f, f ∈ files ∧ ∃ dt, extract_datetime_from_filename f.name = some dt ∧
        v1 = formatDateOnly dt.year dt.month dt.day ∧ v2 = v1 := by
  intro files
  induction files with
  | nil => intro st path v1 v2 ok h; simp [runProcess] at h
  | cons f fs ih =>
    intro st path v1 v2 ok h
    simp only [runProcess] at h
    split at h
    · exact ⟨f, List.mem_cons_self f fs,
        fileOutcome_writeMeta cfg directory f path v1 v2 ok h⟩
    · rcases List.mem_append.mp h with h | h
      · exact ⟨f, List.mem_cons_self f fs,
          fileOutcome_writeMeta cfg directory f path v1 v2 ok h⟩
      · obtain ⟨g, hg, hrest⟩ := ih _ path v1 v2 ok h
        exact ⟨g, List.mem_cons_of_mem f hg, hrest⟩

/-- Claim C5: every metadata write of a run assigns, to both the
creation-date field and the original-date-time field, the extracted
timestamp of some processed file formatted as `YYYY:MM:DD 00:00:00` —
`formatDateOnly` reads only the year, month and day and appends the
literal ` 00:00:00`, so the extracted hour, minute and second are
discarded whether or not a time was parsed from the filename. -/
theorem C5_write_value_discards_time (cfg : Config) (directory : List Char)
    (files : List FileEntry) (path v1 v2 : List Char) (ok : Bool)
    (h : Effect.writeMeta path v1 v2 ok ∈
        (process_images cfg directory files).effects) :
    ∃ f, f ∈ files ∧ ∃ dt, extract_datetime_from_filename f.name = some dt ∧
      v1 = formatDateOnly dt.year dt.month dt.day ∧ v2 = v1 := by
  unfold process_images at h
  simp only [List.mem_append] at h
  rcases h with h | h
  · split at h <;> simp at h
  · exact runProcess_writeMeta cfg directory files initStats path v1 v2 ok h

/-- Witness for C5: an in-place run on `20230415 235958.jpg`, where a
full time 23:59:58 is extracted yet the written value is
`2023:04:15 00:00:00`. -/
theorem C5_witness :
    ∃ f, f ∈ [FileEntry.mk ("20230415 235958.jpg").data [] true] ∧
      ∃ dt, extract_datetime_from_filename f.name = some dt ∧
        ("2023:04:15 00:00:00").data =
            formatDateOnly dt.year dt.month dt.day ∧
          ("2023:04:15 00:00:00").data = ("2023:04:15 00:00:00").data :=
  C5_write_value_discards_time ⟨none, false, true, false⟩ ("d").data
    [FileEntry.mk ("20230415 235958.jpg").data [] true]
    (joinPath ("d").data ("20230415 235958.jpg").data)
    ("2023:04:15 00:00:00").data ("2023:04:15 00:00:00").data true
    (by decide)

/-- Claim C6: a file whose filename yields a date but whose metadata
query returned non-empty (trimmed) output is, when the
replace-existing-metadata flag is false, terminated at the
skipped-existing outcome with the query as its only side effect — no
copy, no move, no metadata write — and that outcome increments only the
skipped-existing-metadata counter. -/
theorem C6_skip_existing_frame (cfg : Config) (directory : List Char)
    (f : FileEntry) (dt : DateTime) (out : List Char)
    (h1 : outputPath cfg directory f.name = some out)
    (h2 : extract_datetime_from_filename f.name = some dt)
    (h3 : hasExistingMeta f = true)
    (h4 : cfg.replace_old_metadata = false) :
    fileOutcome cfg directory f =
        (Outcome.skippedExisting, [Effect.query (joinPath directory f.name)])
      ∧ ∀ st : Stats, applyOutcome st Outcome.skippedExisting =
          { st with files_skipped_existing_metadata :=
              st.files_skipped_existing_metadata + 1 } := by
  constructor
  · simp [fileOutcome, h1, h2, h3, h4]
  · intro st; rfl

/-- Witness for C6: a concrete file with existing metadata under
replace-existing = false. -/
theorem C6_witness :
    fileOutcome ⟨some (("out").data), false, false, false⟩ ("d").data
        ⟨("20230415.jpg").data, ("2020:01:01 00:00:00").data, true⟩ =
        (Outcome.skippedExisting,
          [Effect.query (joinPath ("d").data ("20230415.jpg").data)])
      ∧ ∀ st : Stats, applyOutcome st Outcome.skippedExisting =
          { st with files_skipped_existing_metadata :=
              st.files_skipped_existing_metadata + 1 } :=
  C6_skip_existing_frame ⟨some (("out").data), false, false, false⟩
    ("d").data ⟨("20230415.jpg").data, ("2020:01:01 00:00:00").data, true⟩
    ⟨2023, 4, 15, 0, 0, 0⟩ (joinPath ("out").data ("20230415.jpg").data)
    (by decide) (by decide) (by decide) (by decide)

/-- Claim C7: on a successful metadata write, the outcome — hence the
single counter incremented — is decided by the pre-placement metadata
query on the input file: non-empty output gives the replaced outcome,
empty output gives the changed outcome, and the two outcomes increment
disjoint counters (never both for one file). -/
theorem C7_replaced_or_changed (cfg : Config) (directory : List Char)
    (f : FileEntry) (dt : DateTime) (out : List Char)
    (h1 : outputPath cfg directory f.name = some out)
    (h2 : extract_datetime_from_filename f.name = some dt)
    (h3 : (hasExistingMeta f && !cfg.replace_old_metadata) = false)
    (h4 : f.writeSucceeds = true) :
    (fileOutcome cfg directory f).1 =
        (if hasExistingMeta f then Outcome.replaced else Outcome.changed)
      ∧ Outcome.replaced ≠ Outcome.changed
      ∧ ∀ st : Stats,
          (applyOutcome st Outcome.replaced).files_changed = st.files_changed
          ∧ (applyOutcome st Outcome.changed).files_metadata_replaced =
              st.files_metadata_replaced := by
  refine ⟨?_, by simp, fun st => ⟨rfl, rfl⟩⟩
  by_cases hm : hasExistingMeta f = true
  · have hr : cfg.replace_old_metadata = true := by
      rcases Bool.eq_false_or_eq_true cfg.replace_old_metadata with hr | hr
      · exact hr
      · rw [hm, hr] at h3; simp at h3
    simp [fileOutcome, h1, h2, hm, hr, h4]
  · have hm' : hasExistingMeta f = false := by simpa using hm
    simp [fileOutcome, h1, h2, hm', h4]

/-- Witness for C7: a file with pre-existing metadata processed under
replace-existing = true ends at the replaced outcome. -/
theorem C7_witness :
    ((fileOutcome ⟨none, false, true, true⟩ ("d").data
          ⟨("20230415.jpg").data, ("2020:01:01 00:00:00").data, true⟩).1 =
        (if hasExistingMeta
            ⟨("20230415.jpg").data, ("2020:01:01 00:00:00").data, true⟩ then
          Outcome.replaced
        else Outcome.changed))
      ∧ Outcome.replaced ≠ Outcome.changed
      ∧ ∀ st : Stats,
          (applyOutcome st Outcome.replaced).files_changed = st.files_changed
          ∧ (applyOutcome st Outcome.changed).files_metadata_replaced =
              st.files_metadata_replaced :=
  C7_replaced_or_changed ⟨none, false, true, true⟩ ("d").data
    ⟨("20230415.jpg").data, ("2020:01:01 00:00:00").data, true⟩
    ⟨2023, 4, 15, 0, 0, 0⟩
    (joinPath ("d").data ("20230415.jpg").data)
    (by decide) (by decide) (by decide) (by decide)

/-- Claim C8: a failed metadata write is contained per file: the file
ends at the errored outcome (incrementing only the files-error counter),
its effect trace still carries the copy or move already performed (no
rollback), and the run continues with the remaining directory
entries. -/
theorem C8_write_failure_contained (cfg : Config) (directory : List Char)
    (f : FileEntry) (fs : List FileEntry) (st : Stats) (dt : DateTime)
    (out : List Char)
    (h1 : outputPath cfg directory f.name = some out)
    (h2 : extract_datetime_from_filename f.name = some dt)
    (h3 : (hasExistingMeta f && !cfg.replace_old_metadata) = false)
    (h4 : f.writeSucceeds = false) :
    (fileOutcome cfg directory f).1 = Outcome.errored
      ∧ (fileOutcome cfg directory f).2 =
          Effect.query (joinPath directory f.name) ::
            (if !cfg.in_place then
              (if cfg.move then [Effect.move (joinPath directory f.name) out]
               else [Effect.copy (joinPath directory f.name) out])
            else []) ++
            [Effect.writeMeta out (formatExifDate dt) (formatExifDate dt)
              false]
      ∧ runProcess cfg directory (f :: fs) st =
          ⟨(runProcess cfg directory fs
              (applyOutcome (bumpTotal st) Outcome.errored)).stats,
            (fileOutcome cfg directory f).2 ++
              (runProcess cfg directory fs
                (applyOutcome (bumpTotal st) Outcome.errored)).effects,
            (runProcess cfg directory fs
              (applyOutcome (bumpTotal st) Outcome.errored)).aborted⟩
      ∧ applyOutcome (bumpTotal st) Outcome.errored =
          { bumpTotal st with files_error := st.files_error + 1 } := by
  have ho1 : (fileOutcome cfg directory f).1 = Outcome.errored := by
    simp [fileOutcome, h1, h2, h3, h4]
  have ho2 : (fileOutcome cfg directory f).2 =
      Effect.query (joinPath directory f.name) ::
        (if !cfg.in_place then
          (if cfg.move then [Effect.move (joinPath directory f.name) out]
           else [Effect.copy (joinPath directory f.name) out])
        else []) ++
        [Effect.writeMeta out (formatExifDate dt) (formatExifDate dt)
          false] := by
    simp [fileOutcome, h1, h2, h3, h4]
  refine ⟨ho1, ho2, ?_, rfl⟩
  conv_lhs => unfold runProcess
  simp [ho1]

/-- Witness for C8: a move-mode run whose single file fails the write;
the move stays in the trace and the run continues (empty remainder). -/
theorem C8_witness :
    ((fileOutcome ⟨some (("out").data), true, false, false⟩ ("d").data
          ⟨("20230415.jpg").data, [], false⟩).1 = Outcome.errored)
      ∧ (fileOutcome ⟨some (("out").data), true, false, false⟩ ("d").data
            ⟨("20230415.jpg").data, [], false⟩).2 =
          Effect.query (joinPath ("d").data ("20230415.jpg").data) ::
            (if !(false : Bool) then
              (if true then
                [Effect.move (joinPath ("d").data ("20230415.jpg").data)
                  (joinPath ("out").data ("20230415.jpg").data)]
               else
                [Effect.copy (joinPath ("d").data ("20230415.jpg").data)
                  (joinPath ("out").data ("20230415.jpg").data)])
            else []) ++
            [Effect.writeMeta (joinPath ("out").data ("20230415.jpg").data)
              (formatExifDate ⟨2023, 4, 15, 0, 0, 0⟩)
              (formatExifDate ⟨2023, 4, 15, 0, 0, 0⟩) false]
      ∧ runProcess ⟨some (("out").data), true, false, false⟩ ("d").data
            [⟨("20230415.jpg").data, [], false⟩] initStats =
          ⟨(runProcess ⟨some (("out").data), true, false, false⟩ ("d").data []
              (applyOutcome (bumpTotal initStats) Outcome.errored)).stats,
            (fileOutcome ⟨some (("out").data), true, false, false⟩ ("d").data
                ⟨("20230415.jpg").data, [], false⟩).2 ++
              (runProcess ⟨some (("out").data), true, false, false⟩
                ("d").data []
                (applyOutcome (bumpTotal initStats) Outcome.errored)).effects,
            (runProcess ⟨some (("out").data), true, false, false⟩ ("d").data
              []
              (applyOutcome (bumpTotal initStats) Outcome.errored)).aborted⟩
      ∧ applyOutcome (bumpTotal initStats) Outcome.errored =
          { bumpTotal initStats with
              files_error := initStats.files_error + 1 } :=
  C8_write_failure_contained ⟨some (("out").data), true, false, false⟩
    ("d").data ⟨("20230415.jpg").data, [], false⟩ [] initStats
    ⟨2023, 4, 15, 0, 0, 0⟩ (joinPath ("out").data ("20230415.jpg").data)
    (by decide) (by decide) (by decide) (by decide)

theorem applyOutcome_total (st : Stats) (o : Outcome) :
    (applyOutcome st o).total_files = st.total_files := by
  cases o <;> rfl

theorem sumCounters_applyOutcome (st : Stats) (o : Outcome)
    (h : o ≠ Outcome.abortedRun) :
    sumCounters (applyOutcome st o) = sumCounters st + 1 := by
  cases o with
  | abortedRun => exact absurd rfl h
  | skippedNoDate => simp [applyOutcome, sumCounters]; omega
  | skippedExisting => simp [applyOutcome, sumCounters]; omega
  | changed => simp [applyOutcome, sumCounters]; omega
  | replaced => simp [applyOutcome, sumCounters]; omega
  | errored => simp [applyOutcome, sumCounters]; omega

theorem runProcess_total_invariant (cfg : Config) (directory : List Char) :
    ∀ (files : List FileEntry) (st : Stats),
      (runProcess cfg directory files st).aborted = false →
      (runProcess cfg directory files st).stats.total_files + sumCounters st =
        sumCounters (runProcess cfg directory files st).stats +
          st.total_files := by
  intro files
  induction files with
  | nil => intro st _; simp [runProcess]; omega
  | cons f fs ih =>
    intro st h
    simp only [runProcess] at h ⊢
    split at h
    · simp at h
    case isFalse habort =>
      rw [if_neg habort]
      show (runProcess cfg directory fs
          (applyOutcome (bumpTotal st)
            (fileOutcome cfg directory f).1)).stats.total_files +
          sumCounters st =
        sumCounters (runProcess cfg directory fs
          (applyOutcome (bumpTotal st)
            (fileOutcome cfg directory f).1)).stats + st.total_files
      have ih' := ih (applyOutcome (bumpTotal st) (fileOutcome cfg directory f).1)
        h
      have h1 : (applyOutcome (bumpTotal st)
          (fileOutcome cfg directory f).1).total_files = st.total_files + 1 := by
        rw [applyOutcome_total]; rfl
      have h2 : sumCounters (applyOutcome (bumpTotal st)
          (fileOutcome cfg directory f).1) = sumCounters st + 1 := by
        rw [sumCounters_applyOutcome _ _ habort]; rfl
      rw [h1, h2] at ih'
      omega

/-- Claim C9: for every run of `process_images` that completes (is not
aborted by the missing-destination `TypeError`; a filesystem placement
failure would likewise abort the run without returning statistics), the
total-files counter equals the sum of the five outcome counters: each
directory entry contributes exactly one outcome. -/
theorem C9_total_equals_outcome_sum (cfg : Config) (directory : List Char)
    (files : List FileEntry)
    (h : (process_images cfg directory files).aborted = false) :
    (process_images cfg directory files).stats.total_files =
      sumCounters (process_images cfg directory files).stats := by
  have hab : (runProcess cfg directory files initStats).aborted = false := h
  have := runProcess_total_invariant cfg directory files initStats hab
  have hs : (process_images cfg directory files).stats =
      (runProcess cfg directory files initStats).stats := rfl
  rw [hs]
  simpa [initStats, sumCounters] using this

/-- Witness for C9: an in-place run with one changed file, one
undated file, one skipped-existing file and one write failure:
4 = 1 + 0 + 1 + 1 + 1. -/
theorem C9_witness :
    (process_images ⟨none, false, true, false⟩ ("d").data
        [⟨("20230415.jpg").data, [], true⟩,
         ⟨("vacation.jpg").data, [], true⟩,
         ⟨("20230101.jpg").data, ("2020:01:01 00:00:00").data, true⟩,
         ⟨("20230202.jpg").data, [], false⟩]).stats.total_files =
      sumCounters (process_images ⟨none, false, true, false⟩ ("d").data
        [⟨("20230415.jpg").data, [], true⟩,
         ⟨("vacation.jpg").data, [], true⟩,
         ⟨("20230101.jpg").data, ("2020:01:01 00:00:00").data, true⟩,
         ⟨("20230202.jpg").data, [], false⟩]).stats :=
  C9_total_equals_outcome_sum ⟨none, false, true, false⟩ ("d").data
    [⟨("20230415.jpg").data, [], true⟩,
     ⟨("vacation.jpg").data, [], true⟩,
     ⟨("20230101.jpg").data, ("2020:01:01 00:00:00").data, true⟩,
     ⟨("20230202.jpg").data, [], false⟩]
    (by decide)

/-- Claim C10: with `in_place = false` and `processed_dir` absent,
`process_images` on a non-empty listing aborts with the `TypeError` from
`os.path.join(None, filename)` on the first entry — after the total-files
increment (statistics read 1,0,0,0,0,0) and before any extraction-driven
branch, query, placement, write, or destination-directory creation (the
effect trace is empty; `os.makedirs` runs only when `processed_dir` is
supplied and truthy). -/
theorem C10_missing_processed_dir_aborts (cfg : Config)
    (directory : List Char) (f : FileEntry) (fs : List FileEntry)
    (h1 : cfg.in_place = false) (h2 : cfg.processed_dir = none) :
    process_images cfg directory (f :: fs) =
      ⟨⟨1, 0, 0, 0, 0, 0⟩, [], true⟩ := by
  have ho : fileOutcome cfg directory f = (Outcome.abortedRun, []) := by
    simp [fileOutcome, outputPath, h1, h2]
  simp [process_images, runProcess, ho, optNonEmpty, h1, h2, bumpTotal,
    initStats]

/-- Witness for C10 at a concrete configuration and listing. -/
theorem C10_witness :
    process_images ⟨none, false, false, false⟩ ("d").data
        [⟨("20230415.jpg").data, [], true⟩] =
      ⟨⟨1, 0, 0, 0, 0, 0⟩, [], true⟩ :=
  C10_missing_processed_dir_aborts ⟨none, false, false, false⟩ ("d").data
    ⟨("20230415.jpg").data, [], true⟩ [] (by decide) (by decide)

